import Mathlib

/-!
# wxopencvtest: frame delivery pipeline and session lifecycle

A shallow embedding of `src/ocvframe.cpp` and `src/bmpfromocvpanel.cpp`.

* The frame window `OpenCVFrame` is a record of its member variables; every
  member function is a function from the record to the new record together
  with the list of effects it performs, in program order.
* Everything the program obtains from outside (dialog results, matrices read by
  OpenCV, stopwatch readings, whether a thread could be started) is an
  argument of the function that obtains it.
* The worker thread `CameraThread::Entry` is a function of the outcomes of its
  loop iterations; the event queue of the frame window is a first-in
  first-out list of `wxThreadEvent`.
-/

/-! ## Values exchanged with OpenCV and wxWidgets -/

/-- Model of `cv::Mat`: geometry and pixel payload. -/
structure Mat where
  rows : Nat
  cols : Nat
  data : List Nat
deriving DecidableEq, Repr

/-- Model of `cv::Mat::empty()`: no element. -/
def Mat.empty (m : Mat) : Bool := m.rows * m.cols == 0

/-- The default constructed `cv::Mat`. -/
def Mat.none : Mat := { rows := 0, cols := 0, data := [] }

/-- Model of `wxBitmap`: `null` is the default constructed (invalid) bitmap. -/
inductive wxBitmap where
  | null
  | image (width height depth : Nat) (pixels : List Nat)
deriving DecidableEq, Repr

/-- Model of `wxBitmap::IsOk()`. -/
def wxBitmap.IsOk : wxBitmap → Bool
  | .null => false
  | .image _ _ _ _ => true

/-- Model of `wxBitmap::GetSize()`. -/
def wxBitmap.GetSize : wxBitmap → Nat × Nat
  | .null => (0, 0)
  | .image w h _ _ => (w, h)

/-- The collaborators of `ConvertMatToBitmap` that are not part of the two
translation units: the `wxBitmap(width, height, depth)` constructor and
`ConvertMatBitmapTowxBitmap` (declared in `convertmattowxbmp.h`), which
receives the bitmap by reference and reports success. -/
structure Converter where
  newBitmap : Nat → Nat → Nat → wxBitmap
  ConvertMatBitmapTowxBitmap : Mat → wxBitmap → Bool × wxBitmap

/-- Payload of a frame event, `CameraThread::CameraFrame`. -/
structure CameraFrame where
  matBitmap : Mat
  timeGet : Int
deriving DecidableEq, Repr

/-- The two thread events defined by `wxDEFINE_EVENT`. -/
inductive wxThreadEvent where
  | CAMERA_FRAME (payload : CameraFrame)
  | CAMERA_EMPTY
deriving DecidableEq, Repr

/-- Observable effects, recorded in program order. -/
inductive Effect where
  /-- Worker: `new CameraFrame`. -/
  | newCameraFrame
  /-- Worker: `(*m_camera) >> frame->matBitmap`. -/
  | workerPull
  /-- Worker: `delete frame`. -/
  | workerDeleteFrame
  /-- Worker: `m_eventSink->QueueEvent(evt)`. -/
  | QueueEvent (evt : wxThreadEvent)
  /-- Worker: `wxLogError` in the catch block. -/
  | workerLogError
  /-- Main thread: `m_cameraThread->Delete()` is entered, termination is requested. -/
  | threadDeleteBegin
  /-- Main thread: `m_cameraThread->Delete()` returns, the worker has exited. -/
  | threadDeleteEnd
  /-- Main thread: `delete m_cameraThread`. -/
  | threadFree
  /-- Main thread: `m_cameraThread->Run()` with its outcome. -/
  | threadRun (ok : Bool)
  /-- Main thread: `new cv::VideoCapture(...)`. -/
  | captureNew (source : String)
  /-- Main thread: `delete` of a `cv::VideoCapture`. -/
  | captureDelete (source : String)
  /-- Main thread: `set(CAP_PROP_POS_FRAMES, n)`. -/
  | captureSetPos (n : Int)
  /-- Main thread: `(*m_videoCapture) >> matBitmap`. -/
  | capturePull
  /-- Main thread: `cv::imread`. -/
  | imread (fileName : String)
  /-- Main thread: call of `ConvertMatBitmapTowxBitmap`. -/
  | convert (mat : Mat)
  /-- Main thread: `m_bitmapPanel->SetBitmap(bitmap, timeGet, timeConvert)`. -/
  | SetBitmap (bitmap : wxBitmap) (timeGet timeConvert : Int)
  /-- Main thread: `delete frame` of an event payload. -/
  | deleteFrame (frame : CameraFrame)
  /-- Main thread: `wxLogError`. -/
  | LogError (msg : String)
deriving DecidableEq, Repr

/-! ## The worker thread -/

/-- What one turn of the `while ( !TestDestroy() )` loop meets. -/
inductive LoopInput where
  /-- `TestDestroy()` returned true. -/
  | destroyed
  /-- `TestDestroy()` returned false and the pull returned `mat` after `timeGet` ms. -/
  | pulled (mat : Mat) (timeGet : Int)
  /-- `TestDestroy()` returned false and the pull raised `cv::Exception`. -/
  | threw
deriving DecidableEq, Repr

/-- Model of `CameraThread`: the thread object owned by the frame window. `inFlight` is the
loop turn the worker is inside at the moment the main thread looks at it
(`none` when it stands at the loop test or has left the loop). -/
structure CameraThread where
  m_camera : String
  inFlight : Option LoopInput
deriving DecidableEq, Repr

/-- Embedding of `CameraThread::Entry()`, `src/ocvframe.cpp` lines 59-95, over the outcomes
of its loop turns. The list ending stands for the end of the observation. -/
def CameraThread.Entry : List LoopInput → List Effect
  | [] => []
  | .destroyed :: _ => []
  | .pulled mat timeGet :: rest =>
    if !mat.empty then
      [Effect.newCameraFrame, Effect.workerPull,
        Effect.QueueEvent (.CAMERA_FRAME { matBitmap := mat, timeGet := timeGet })]
        ++ CameraThread.Entry rest
    else
      [Effect.newCameraFrame, Effect.workerPull, Effect.workerDeleteFrame,
        Effect.QueueEvent .CAMERA_EMPTY]
  | .threw :: rest =>
    [Effect.newCameraFrame, Effect.workerPull, Effect.workerLogError]
      ++ CameraThread.Entry rest

/-- Model of `wxThread::Delete()` on a joinable thread: termination is requested, so every
later `TestDestroy()` is true; the worker finishes the loop turn it is inside, meets the
test and leaves `Entry`; only then does `Delete()` return. -/
def CameraThread.Delete (t : CameraThread) : List Effect :=
  [Effect.threadDeleteBegin]
    ++ CameraThread.Entry (t.inFlight.toList ++ [LoopInput.destroyed])
    ++ [Effect.threadDeleteEnd]

/-- The events a list of effects appends to the event queue. -/
def queued : List Effect → List wxThreadEvent
  | [] => []
  | .QueueEvent evt :: rest => evt :: queued rest
  | _ :: rest => queued rest

/-- Number of pulls the worker performs in a list of effects. -/
def workerPulls (tr : List Effect) : Nat := tr.count Effect.workerPull

/-! ## The bitmap panel -/

/-- Members of `wxBitmapFromOpenCVPanel` that `SetBitmap` writes, with the virtual size of
the scrolled canvas. -/
structure wxBitmapFromOpenCVPanel where
  m_bitmap : wxBitmap
  m_timeGetCVBitmap : Int
  m_timeConvertBitmap : Int
  virtualSize : Nat × Nat
deriving DecidableEq, Repr

/-- Embedding of `wxBitmapFromOpenCVPanel::SetBitmap`, `src/bmpfromocvpanel.cpp` lines 37-60. -/
def wxBitmapFromOpenCVPanel.SetBitmap (p : wxBitmapFromOpenCVPanel) (bitmap : wxBitmap)
    (timeGet timeConvert : Int) : wxBitmapFromOpenCVPanel :=
  { m_bitmap := bitmap
    virtualSize :=
      if bitmap.IsOk then
        (if bitmap.GetSize ≠ p.virtualSize then bitmap.GetSize else p.virtualSize)
      else (1, 1)
    m_timeGetCVBitmap := timeGet
    m_timeConvertBitmap := timeConvert }

/-- What the panel shows: its bitmap with the two timings of the overlay. -/
def wxBitmapFromOpenCVPanel.shows (p : wxBitmapFromOpenCVPanel) : wxBitmap × Int × Int :=
  (p.m_bitmap, p.m_timeGetCVBitmap, p.m_timeConvertBitmap)

/-! ## The capture resource -/

/-- Model of `cv::VideoCapture`: the frames of the source with a read position that
advances by one on each pull, and the properties the program sets. -/
structure VideoCapture where
  source : String
  opened : Bool
  frames : List Mat
  pos : Int
  frameWidth : Int
  frameHeight : Int
  mjpg : Bool
deriving DecidableEq, Repr

/-- Model of `cv::VideoCapture::isOpened()`. -/
def VideoCapture.isOpened (c : VideoCapture) : Bool := c.opened

/-- Model of `operator>>`: the frame at the read position, or an empty matrix past the end. -/
def VideoCapture.read (c : VideoCapture) : Mat × VideoCapture :=
  if 0 ≤ c.pos then
    match c.frames[c.pos.toNat]? with
    | some m => (m, { c with pos := c.pos + 1 })
    | none => (Mat.none, c)
  else (Mat.none, c)

/-- Model of `get(CAP_PROP_FRAME_COUNT)`. -/
def VideoCapture.frameCount (c : VideoCapture) : Int := c.frames.length

/-! ## The frame window -/

/-- The enumeration `OpenCVFrame::Mode`. -/
inductive Mode where
  | Empty | Image | Video | WebCam | IPCamera
deriving DecidableEq, Repr

/-- State of the `wxSlider` that the frame window drives. -/
structure wxSlider where
  value : Int
  min : Int
  max : Int
  enabled : Bool
  shown : Bool
deriving DecidableEq, Repr

/-- Member variables of `OpenCVFrame` (`src/ocvframe.h`), with the window title. -/
structure OpenCVFrame where
  m_mode : Mode
  m_sourceName : String
  m_currentVideoFrameNumber : Int
  m_videoCapture : Option VideoCapture
  m_cameraThread : Option CameraThread
  m_bitmapPanel : wxBitmapFromOpenCVPanel
  m_videoSlider : wxSlider
  m_propertiesButton : Bool
  title : String
deriving DecidableEq, Repr

namespace OpenCVFrame

/-- Embedding of `OpenCVFrame::ConvertMatToBitmap`, lines 161-180. `time` is the stopwatch
reading after the conversion, `timeConvert` the caller's variable passed by reference; the
result is the returned bitmap with the new value of that variable. -/
def ConvertMatToBitmap (cv : Converter) (matBitmap : Mat) (time : Int) (timeConvert : Int) :
    (wxBitmap × Int) × List Effect :=
  if matBitmap.empty then ((wxBitmap.null, timeConvert), [])
  else
    let bitmap := cv.newBitmap matBitmap.cols matBitmap.rows 24
    let r := cv.ConvertMatBitmapTowxBitmap matBitmap bitmap
    if !r.1 then
      ((r.2, timeConvert),
        [Effect.convert matBitmap, Effect.LogError "Could not convert Mat to wxBitmap."])
    else ((r.2, time), [Effect.convert matBitmap])

/-- Embedding of `OpenCVFrame::UpdateFrameTitle`, lines 207-231. -/
def UpdateFrameTitle (s : OpenCVFrame) : OpenCVFrame :=
  let modeStr :=
    match s.m_mode with
    | .Empty => "Empty"
    | .Image => "Image"
    | .Video => "Video"
    | .WebCam => "WebCam"
    | .IPCamera => "IP Camera"
  { s with title := "wxOpenCVTest: " ++ modeStr }

/-- Embedding of `OpenCVFrame::DeleteCameraThread`, lines 329-337. -/
def DeleteCameraThread (s : OpenCVFrame) : OpenCVFrame × List Effect :=
  match s.m_cameraThread with
  | some t => ({ s with m_cameraThread := none }, t.Delete ++ [Effect.threadFree])
  | none => (s, [])

/-- Embedding of `OpenCVFrame::Clear`, lines 182-205. -/
def Clear (s : OpenCVFrame) : OpenCVFrame × List Effect :=
  let r1 := s.DeleteCameraThread
  let t2 :=
    match r1.1.m_videoCapture with
    | some c => [Effect.captureDelete c.source]
    | none => []
  let s2 : OpenCVFrame :=
    { r1.1 with
      m_videoCapture := none
      m_mode := Mode.Empty
      m_sourceName := ""
      m_currentVideoFrameNumber := 0
      m_bitmapPanel := r1.1.m_bitmapPanel.SetBitmap wxBitmap.null 0 0
      m_videoSlider := { value := 0, min := 0, max := 1, enabled := false, shown := false }
      m_propertiesButton := false }
  (s2.UpdateFrameTitle, r1.2 ++ t2 ++ [Effect.SetBitmap wxBitmap.null 0 0])

/-- Embedding of `OpenCVFrame::ShowVideoFrame`, lines 233-266. `timeGet` is the stopwatch
reading after the pull and `time` the one after the conversion. The function is only called
with a capture present; without one the C++ code would dereference a null pointer. -/
def ShowVideoFrame (cv : Converter) (s : OpenCVFrame) (frameNumber : Int)
    (timeGet time : Int) : OpenCVFrame × List Effect :=
  match s.m_videoCapture with
  | none => (s, [])
  | some cap =>
    let captureFrameNumber := cap.pos
    let cap1 : VideoCapture :=
      if frameNumber ≠ captureFrameNumber then { cap with pos := frameNumber } else cap
    let t1 : List Effect :=
      if frameNumber ≠ captureFrameNumber then [Effect.captureSetPos frameNumber] else []
    let rd := cap1.read
    let s1 : OpenCVFrame := { s with m_videoCapture := some rd.2 }
    if rd.1.empty then
      ({ s1 with m_bitmapPanel := s1.m_bitmapPanel.SetBitmap wxBitmap.null 0 0 },
        t1 ++ [Effect.capturePull, Effect.SetBitmap wxBitmap.null 0 0,
          Effect.LogError "Could not retrieve frame."])
    else
      let r := ConvertMatToBitmap cv rd.1 time 0
      if !r.1.1.IsOk then
        ({ s1 with m_bitmapPanel := s1.m_bitmapPanel.SetBitmap wxBitmap.null 0 0 },
          t1 ++ [Effect.capturePull] ++ r.2 ++ [Effect.SetBitmap wxBitmap.null 0 0,
            Effect.LogError "Could not convert frame to wxBitmap."])
      else
        ({ s1 with m_bitmapPanel := s1.m_bitmapPanel.SetBitmap r.1.1 timeGet r.1.2 },
          t1 ++ [Effect.capturePull] ++ r.2 ++ [Effect.SetBitmap r.1.1 timeGet r.1.2])

/-- Embedding of `OpenCVFrame::StartCameraThread`, lines 313-327. `runOk` tells whether
`Run()` returned `wxTHREAD_NO_ERROR`. -/
def StartCameraThread (s : OpenCVFrame) (runOk : Bool) : (OpenCVFrame × List Effect) × Bool :=
  let r1 := s.DeleteCameraThread
  let thread : CameraThread :=
    { m_camera := (r1.1.m_videoCapture.map VideoCapture.source).getD "", inFlight := none }
  if !runOk then
    (({ r1.1 with m_cameraThread := none },
      r1.2 ++ [Effect.threadRun false, Effect.threadFree,
        Effect.LogError "Could not create the thread needed to load the data."]), false)
  else
    (({ r1.1 with m_cameraThread := some thread }, r1.2 ++ [Effect.threadRun true]), true)

/-- Embedding of `OpenCVFrame::StartCameraCapture`, lines 268-311. `cap` is the object that
`new cv::VideoCapture(...)` constructs. -/
def StartCameraCapture (s : OpenCVFrame) (address : String) (resolution : Int × Int)
    (useMJPEG : Bool) (cap : VideoCapture) (runOk : Bool) :
    (OpenCVFrame × List Effect) × Bool :=
  let isDefaultWebCam := address.isEmpty
  let r1 := s.Clear
  let t1 := r1.2 ++ [Effect.captureNew cap.source]
  if !cap.isOpened then
    ((r1.1, t1 ++ [Effect.captureDelete cap.source,
      Effect.LogError "Could not connect to the camera."]), false)
  else
    let cap1 : VideoCapture :=
      if isDefaultWebCam then
        { cap with
          frameWidth := resolution.1
          frameHeight := resolution.2
          mjpg := if useMJPEG then true else cap.mjpg }
      else cap
    let s2 : OpenCVFrame := { r1.1 with m_videoCapture := some cap1 }
    let r3 := s2.StartCameraThread runOk
    if !r3.2 then
      let r4 := r3.1.1.Clear
      ((r4.1, t1 ++ r3.1.2 ++ r4.2), false)
    else
      ((r3.1.1, t1 ++ r3.1.2), true)

/-- Embedding of `OpenCVFrame::OnImage`, lines 339-380. `fileName` is the result of the file
selector, `matBitmap` the result of `cv::imread` and `timeGet`, `time` the stopwatch readings. -/
def OnImage (cv : Converter) (s : OpenCVFrame) (fileName : String) (matBitmap : Mat)
    (timeGet time : Int) : OpenCVFrame × List Effect :=
  if fileName.isEmpty then (s, [])
  else if matBitmap.empty then
    (s, [Effect.imread fileName, Effect.LogError "Could not read image."])
  else
    let r1 := s.Clear
    let r2 := ConvertMatToBitmap cv matBitmap time 0
    if !r2.1.1.IsOk then
      let r3 := r1.1.Clear
      (r3.1, [Effect.imread fileName] ++ r1.2 ++ r2.2
        ++ [Effect.LogError "Could not convert Mat to wxBitmap."] ++ r3.2)
    else
      let s3 : OpenCVFrame :=
        { r1.1 with
          m_bitmapPanel := r1.1.m_bitmapPanel.SetBitmap r2.1.1 timeGet r2.1.2
          m_propertiesButton := true
          m_mode := Mode.Image
          m_sourceName := fileName }
      (s3.UpdateFrameTitle, [Effect.imread fileName] ++ r1.2 ++ r2.2
        ++ [Effect.SetBitmap r2.1.1 timeGet r2.1.2])

/-- Embedding of `OpenCVFrame::OnVideo`, lines 382-420. `cap` is the object that
`new cv::VideoCapture(fileName)` constructs. -/
def OnVideo (cv : Converter) (s : OpenCVFrame) (fileName : String) (cap : VideoCapture)
    (timeGet time : Int) : OpenCVFrame × List Effect :=
  if fileName.isEmpty then (s, [])
  else if !cap.isOpened then
    let r1 := s.Clear
    (r1.1, [Effect.captureNew cap.source, Effect.LogError "Could not read video.",
      Effect.captureDelete cap.source] ++ r1.2)
  else
    let s1 : OpenCVFrame :=
      { s with
        m_videoCapture := some cap
        m_mode := Mode.Video
        m_sourceName := fileName
        m_currentVideoFrameNumber := 0 }
    let s2 := s1.UpdateFrameTitle
    let r3 := ShowVideoFrame cv s2 s2.m_currentVideoFrameNumber timeGet time
    let frameCount : Int := (r3.1.m_videoCapture.map VideoCapture.frameCount).getD 0
    let s4 : OpenCVFrame :=
      { r3.1 with
        m_videoSlider :=
          { value := 0, min := 0, max := frameCount - 1, enabled := true, shown := true }
        m_propertiesButton := true }
    (s4, [Effect.captureNew cap.source] ++ r3.2)

/-- The table `resolutions` of `OpenCVFrame::OnWebCam`. -/
def resolutions : List (Int × Int) :=
  [(320, 240), (640, 480), (800, 600), (1024, 576), (1280, 720), (1920, 1080)]

/-- Embedding of `OpenCVFrame::OnWebCam`, lines 423-453. `resolutionIndex` is the result of
the choice dialog and `useMJPEG` the answer to the message box. -/
def OnWebCam (s : OpenCVFrame) (resolutionIndex : Int) (useMJPEG : Bool)
    (cap : VideoCapture) (runOk : Bool) : OpenCVFrame × List Effect :=
  if resolutionIndex = -1 then (s, [])
  else
    let r := s.StartCameraCapture "" (resolutions.getD resolutionIndex.toNat (0, 0))
      useMJPEG cap runOk
    if r.2 then
      let s1 : OpenCVFrame :=
        { r.1.1 with m_mode := Mode.WebCam, m_sourceName := "Default WebCam" }
      ({ s1.UpdateFrameTitle with m_propertiesButton := true }, r.1.2)
    else r.1

/-- Embedding of `OpenCVFrame::OnIPCamera`, lines 455-472. `address` is the text the user
entered. -/
def OnIPCamera (s : OpenCVFrame) (address : String) (cap : VideoCapture) (runOk : Bool) :
    OpenCVFrame × List Effect :=
  if address.isEmpty then (s, [])
  else
    let r := s.StartCameraCapture address (-1, -1) false cap runOk
    if r.2 then
      let s1 : OpenCVFrame := { r.1.1 with m_mode := Mode.IPCamera, m_sourceName := address }
      ({ s1.UpdateFrameTitle with m_propertiesButton := true }, r.1.2)
    else r.1

/-- Embedding of `OpenCVFrame::OnClear`, lines 474-477. -/
def OnClear (s : OpenCVFrame) : OpenCVFrame × List Effect := s.Clear

/-- Embedding of `OpenCVFrame::OnVideoSetFrame`, lines 526-537. `requestedFrameNumber` is
`evt.GetInt()`. -/
def OnVideoSetFrame (cv : Converter) (s : OpenCVFrame) (requestedFrameNumber : Int)
    (timeGet time : Int) : OpenCVFrame × List Effect :=
  if s.m_videoCapture.isNone then (s, [])
  else if requestedFrameNumber = s.m_currentVideoFrameNumber then (s, [])
  else
    let s1 : OpenCVFrame := { s with m_currentVideoFrameNumber := requestedFrameNumber }
    ShowVideoFrame cv s1 s1.m_currentVideoFrameNumber timeGet time

/-- Embedding of `OpenCVFrame::OnCameraFrame`, lines 539-560. `frame` is the payload of the
event and `time` the stopwatch reading after the conversion. -/
def OnCameraFrame (cv : Converter) (s : OpenCVFrame) (frame : CameraFrame) (time : Int) :
    OpenCVFrame × List Effect :=
  if s.m_mode != Mode.IPCamera && s.m_mode != Mode.WebCam then
    (s, [Effect.deleteFrame frame])
  else
    let r := ConvertMatToBitmap cv frame.matBitmap time 0
    if r.1.1.IsOk then
      ({ s with m_bitmapPanel := s.m_bitmapPanel.SetBitmap r.1.1 frame.timeGet r.1.2 },
        r.2 ++ [Effect.SetBitmap r.1.1 frame.timeGet r.1.2, Effect.deleteFrame frame])
    else
      ({ s with m_bitmapPanel := s.m_bitmapPanel.SetBitmap wxBitmap.null 0 0 },
        r.2 ++ [Effect.SetBitmap wxBitmap.null 0 0, Effect.deleteFrame frame])

/-- Embedding of `OpenCVFrame::OnCameraEmpty`, lines 562-567. -/
def OnCameraEmpty (s : OpenCVFrame) : OpenCVFrame × List Effect :=
  let r := s.Clear
  (r.1, [Effect.LogError "Connection to the camera lost."] ++ r.2)

/-- The members as initialised in `src/ocvframe.h` and by the constructors of the widgets,
before the constructor body calls `Clear()`. -/
def constructed : OpenCVFrame :=
  { m_mode := Mode.Empty
    m_sourceName := ""
    m_currentVideoFrameNumber := 0
    m_videoCapture := none
    m_cameraThread := none
    m_bitmapPanel :=
      { m_bitmap := wxBitmap.null, m_timeGetCVBitmap := 0, m_timeConvertBitmap := 0,
        virtualSize := (0, 0) }
    m_videoSlider := { value := 0, min := 0, max := 100, enabled := true, shown := true }
    m_propertiesButton := true
    title := "" }

/-- The state the constructor `OpenCVFrame::OpenCVFrame` leaves, lines 100-154: it ends
with `Clear()`. -/
def initial : OpenCVFrame := constructed.Clear.1

end OpenCVFrame

/-! ## The event handlers as one transition function -/

/-- One call of an event handler of the frame window, with everything it obtains from
outside. -/
inductive HandlerCall where
  | OnImage (fileName : String) (matBitmap : Mat) (timeGet time : Int)
  | OnVideo (fileName : String) (cap : VideoCapture) (timeGet time : Int)
  | OnWebCam (resolutionIndex : Int) (useMJPEG : Bool) (cap : VideoCapture) (runOk : Bool)
  | OnIPCamera (address : String) (cap : VideoCapture) (runOk : Bool)
  | OnClear
  | OnVideoSetFrame (requestedFrameNumber : Int) (timeGet time : Int)
  | OnCameraFrame (frame : CameraFrame) (time : Int)
  | OnCameraEmpty

/-- The handler bound to each event (`Bind` calls of the constructor). -/
def OpenCVFrame.handle (cv : Converter) (s : OpenCVFrame) : HandlerCall → OpenCVFrame × List Effect
  | .OnImage fileName matBitmap timeGet time => s.OnImage cv fileName matBitmap timeGet time
  | .OnVideo fileName cap timeGet time => s.OnVideo cv fileName cap timeGet time
  | .OnWebCam resolutionIndex useMJPEG cap runOk =>
    s.OnWebCam resolutionIndex useMJPEG cap runOk
  | .OnIPCamera address cap runOk => s.OnIPCamera address cap runOk
  | .OnClear => s.OnClear
  | .OnVideoSetFrame n timeGet time => s.OnVideoSetFrame cv n timeGet time
  | .OnCameraFrame frame time => s.OnCameraFrame cv frame time
  | .OnCameraEmpty => s.OnCameraEmpty

/-- The state after a sequence of handler calls. -/
def OpenCVFrame.run (cv : Converter) (s : OpenCVFrame) : List HandlerCall → OpenCVFrame
  | [] => s
  | a :: rest => OpenCVFrame.run cv (s.handle cv a).1 rest

/-- The frame window together with the pending events of its event handler and the
effects performed so far. -/
structure App where
  frame : OpenCVFrame
  pending : List wxThreadEvent
  trace : List Effect
deriving DecidableEq, Repr

namespace App

/-- The application after `OpenCVApp::OnInit` (`src/ocvapp.cpp`). -/
def start : App := { frame := OpenCVFrame.initial, pending := [], trace := [] }

/-- A handler runs on the main thread; the events queued while it runs (by the worker
that `Delete()` waits for) are appended to the pending events. -/
def user (cv : Converter) (a : App) (act : HandlerCall) : App :=
  let r := a.frame.handle cv act
  { frame := r.1, pending := a.pending ++ queued r.2, trace := a.trace ++ r.2 }

/-- The worker runs while the main thread handles no event: it completes the loop turns
`turns` and is then inside the turn `inFlight`, if any. Without a worker nothing happens. -/
def worker (a : App) (turns : List LoopInput) (inFlight : Option LoopInput) : App :=
  match a.frame.m_cameraThread with
  | none => a
  | some t =>
    let tr := CameraThread.Entry turns
    { frame := { a.frame with m_cameraThread := some { t with inFlight := inFlight } }
      pending := a.pending ++ queued tr
      trace := a.trace ++ tr }

/-- The event loop hands the oldest pending event to its handler. -/
def dispatch (cv : Converter) (a : App) (time : Int) : App :=
  match a.pending with
  | [] => a
  | .CAMERA_FRAME frame :: rest =>
    user cv { a with pending := rest } (HandlerCall.OnCameraFrame frame time)
  | .CAMERA_EMPTY :: rest =>
    user cv { a with pending := rest } HandlerCall.OnCameraEmpty

/-- The event loop handles pending events, one per stopwatch reading in `times`. -/
def dispatchAll (cv : Converter) (a : App) : List Int → App
  | [] => a
  | time :: rest => dispatchAll cv (a.dispatch cv time) rest

end App

/-- The calls of `SetBitmap` in a list of effects, in order. -/
def setBitmapCalls : List Effect → List (wxBitmap × Int × Int)
  | [] => []
  | .SetBitmap b tg tc :: rest => (b, tg, tc) :: setBitmapCalls rest
  | _ :: rest => setBitmapCalls rest

/-! ## Sample collaborators and sources -/

/-- A converter that succeeds: the bitmap receives the pixels of the matrix. -/
def copyConverter : Converter :=
  { newBitmap := fun w h d => wxBitmap.image w h d []
    ConvertMatBitmapTowxBitmap := fun m _ => (true, wxBitmap.image m.cols m.rows 24 m.data) }

/-- A converter that rejects every matrix and leaves the bitmap as allocated. -/
def rejectingConverter : Converter :=
  { newBitmap := fun w h d => wxBitmap.image w h d []
    ConvertMatBitmapTowxBitmap := fun _ b => (false, b) }

/-- A one pixel matrix holding `v`. -/
def pixel (v : Nat) : Mat := { rows := 1, cols := 1, data := [v] }

/-- An opened capture named `source` holding `frames`, at position 0. -/
def openedCapture (source : String) (frames : List Mat) : VideoCapture :=
  { source := source, opened := true, frames := frames, pos := 0,
    frameWidth := 0, frameHeight := 0, mjpg := false }

/-- The loop turn of a pull that returned `p.1` after `p.2` ms, with no cancellation. -/
def pulledTurn (p : Mat × Int) : LoopInput := LoopInput.pulled p.1 p.2

/-- The frame event the worker posts for the pull result `p`. -/
def frameEvent (p : Mat × Int) : wxThreadEvent :=
  wxThreadEvent.CAMERA_FRAME { matBitmap := p.1, timeGet := p.2 }

/-- A live session: web camera `camA` opened from the initial state. -/
def liveSession : OpenCVFrame :=
  (OpenCVFrame.initial.OnWebCam 1 false (openedCapture "camA" []) true).1

/-- The live session at a moment when the worker is inside a pull that will return the
frame `pixel 7` after 5 ms. -/
def liveSessionPulling : OpenCVFrame :=
  { liveSession with
    m_cameraThread := some { m_camera := "camA", inFlight := some (LoopInput.pulled (pixel 7) 5) } }

/-- A video session: `v.avi` with three frames opened from the initial state. -/
def videoSession : OpenCVFrame :=
  (OpenCVFrame.initial.OnVideo copyConverter "v.avi"
    (openedCapture "v.avi" [pixel 10, pixel 11, pixel 12]) 4 2).1

/-- The agreement between `m_mode` and the presence of `m_videoCapture` and
`m_cameraThread` that the session invariant asks for; nothing is asked in Image mode. -/
def OpenCVFrame.sessionAgrees (s : OpenCVFrame) : Bool :=
  match s.m_mode with
  | .Empty => s.m_videoCapture.isNone && s.m_cameraThread.isNone
  | .Image => true
  | .Video => s.m_videoCapture.isSome && s.m_cameraThread.isNone
  | .WebCam => s.m_videoCapture.isSome && s.m_cameraThread.isSome
  | .IPCamera => s.m_videoCapture.isSome && s.m_cameraThread.isSome

/-- The session an open failure is to leave: mode Empty, no capture resource, no worker,
and the presenter holding the empty bitmap with both timings 0. -/
def OpenCVFrame.isEmptySession (s : OpenCVFrame) : Prop :=
  s.m_mode = Mode.Empty ∧ s.m_videoCapture = none ∧ s.m_cameraThread = none
    ∧ s.m_bitmapPanel.shows = (wxBitmap.null, 0, 0)

/-- A capture that could not be opened. -/
def closedCapture (source : String) : VideoCapture :=
  { source := source, opened := false, frames := [], pos := 0,
    frameWidth := 0, frameHeight := 0, mjpg := false }

/-- The user opens the web camera `camA`; while its worker is inside a pull that will
return `late`, the user opens the web camera `camB`. `StartCameraCapture` calls `Clear()`,
which waits for the worker of `camA`. -/
def reopenWhilePulling (late : Mat) : App :=
  ((App.start.user copyConverter
      (HandlerCall.OnWebCam 1 false (openedCapture "camA" []) true)).worker []
      (some (LoopInput.pulled late 5))).user copyConverter
    (HandlerCall.OnWebCam 2 false (openedCapture "camB" []) true)

/-- The user opens the web camera `camA`; while its worker is inside a pull that will
return an empty matrix, the user opens the image `i.png`. `OnImage` calls `Clear()`,
which waits for the worker of `camA`. -/
def imageWhilePulling : App :=
  ((App.start.user copyConverter
      (HandlerCall.OnWebCam 1 false (openedCapture "camA" []) true)).worker []
      (some (LoopInput.pulled Mat.none 5))).user copyConverter
    (HandlerCall.OnImage "i.png" (pixel 9) 4 2)

/-- What `OnCameraFrame` hands to `SetBitmap` in a live mode for the pull result `p`, when
`time` is the stopwatch reading after the conversion (`src/ocvframe.cpp` lines 551-557). -/
def presented (cv : Converter) (p : Mat × Int) (time : Int) : wxBitmap × Int × Int :=
  let r := OpenCVFrame.ConvertMatToBitmap cv p.1 time 0
  if r.1.1.IsOk then (r.1.1, p.2, r.1.2) else (wxBitmap.null, 0, 0)

/-- The live session as an application with no pending event and an empty trace. -/
def liveApp : App := { frame := liveSession, pending := [], trace := [] }

/-! ## Painting -/

/-- Model of `wxRect`: position of the top left corner, width and height. -/
structure wxRect where
  x : Int
  y : Int
  width : Int
  height : Int
deriving DecidableEq, Repr

/-- Model of `wxRect::Contains(x, y)`: the points a filled rectangle covers. -/
def wxRect.Contains (r : wxRect) (px py : Int) : Bool :=
  decide (r.x ≤ px) && decide (r.y ≤ py) && decide (py - r.y < r.height)
    && decide (px - r.x < r.width)

/-- Model of `wxBitmap::GetWidth()`. -/
def wxBitmap.GetWidth : wxBitmap → Int
  | .null => 0
  | .image w _ _ _ => w

/-- Model of `wxBitmap::GetHeight()`. -/
def wxBitmap.GetHeight : wxBitmap → Int
  | .null => 0
  | .image _ h _ _ => h

/-- The drawing calls `OnPaint` makes on the device context. -/
inductive PaintOp where
  /-- Call `dc.Clear()`. -/
  | Clear
  /-- Call `dc.DrawBitmap(bitmap, x, y, false)`. -/
  | DrawBitmap (bitmap : wxBitmap) (x y : Int)
  /-- Call `dc.DrawRectangle(r)` with the black pen and the black brush. -/
  | DrawRectangle (r : wxRect)
  /-- Call `dc.DrawText` of the three timings at `pos`. -/
  | DrawText (timeGet timeConvert drawTime : Int) (pos : Int × Int)
deriving DecidableEq, Repr

/-- Embedding of `wxBitmapFromOpenCVPanel::OnPaint`, `src/bmpfromocvpanel.cpp` lines 77-136.
`clientSize` is `GetClientSize()`, `viewStart` is `GetViewStart()` in scroll units,
`pixelsPerUnit` is what `GetScrollPixelsPerUnit` gives and `drawTime` the stopwatch
reading. Sizes and coordinates are taken as integers without overflow. -/
def wxBitmapFromOpenCVPanel.OnPaint (p : wxBitmapFromOpenCVPanel)
    (clientSize viewStart pixelsPerUnit : Int × Int) (drawTime : Int) : List PaintOp :=
  if !p.m_bitmap.IsOk then [PaintOp.Clear]
  else
    let offset : Int × Int := (viewStart.1 * pixelsPerUnit.1, viewStart.2 * pixelsPerUnit.2)
    [PaintOp.DrawBitmap p.m_bitmap 0 0]
      ++ (if p.m_bitmap.GetWidth - offset.1 < clientSize.1 then
            [PaintOp.DrawRectangle
              { x := p.m_bitmap.GetWidth
                y := offset.2
                width := clientSize.1 - p.m_bitmap.GetWidth + offset.1
                height := clientSize.2 }]
          else [])
      ++ (if p.m_bitmap.GetHeight - offset.2 < clientSize.2 then
            [PaintOp.DrawRectangle
              { x := offset.1
                y := p.m_bitmap.GetHeight
                width := p.m_bitmap.GetWidth
                height := clientSize.2 - p.m_bitmap.GetHeight + offset.2 }]
          else [])
      ++ [PaintOp.DrawText p.m_timeGetCVBitmap p.m_timeConvertBitmap drawTime offset]

/-- The rectangles a list of drawing calls fills, in order. -/
def paintedRects : List PaintOp → List wxRect
  | [] => []
  | .DrawRectangle r :: rest => r :: paintedRects rest
  | _ :: rest => paintedRects rest

/-- The payloads a list of effects deletes on the main thread, in order. -/
def deletedFrames : List Effect → List CameraFrame
  | [] => []
  | .deleteFrame f :: rest => f :: deletedFrames rest
  | _ :: rest => deletedFrames rest

/-- A panel showing a bitmap of 100 x 80 pixels. -/
def paintedPanel : wxBitmapFromOpenCVPanel :=
  { m_bitmap := wxBitmap.image 100 80 24 [], m_timeGetCVBitmap := 5, m_timeConvertBitmap := 3,
    virtualSize := (100, 80) }

/-- A session in Image mode: `i.png` opened from the initial state. -/
def imageSession : OpenCVFrame :=
  (OpenCVFrame.initial.OnImage copyConverter "i.png" (pixel 9) 4 2).1

/-! ## Lemmas on effect lists -/

theorem queued_append (a b : List Effect) : queued (a ++ b) = queued a ++ queued b := by
  induction a with
  | nil => rfl
  | cons e a ih => cases e <;> simp [queued, ih]

theorem setBitmapCalls_append (a b : List Effect) :
    setBitmapCalls (a ++ b) = setBitmapCalls a ++ setBitmapCalls b := by
  induction a with
  | nil => rfl
  | cons e a ih => cases e <;> simp [setBitmapCalls, ih]

theorem workerPulls_append (a b : List Effect) :
    workerPulls (a ++ b) = workerPulls a + workerPulls b := by
  simp [workerPulls]

theorem Entry_pulled_frame (mat : Mat) (timeGet : Int) (rest : List LoopInput)
    (h : mat.empty = false) :
    CameraThread.Entry (LoopInput.pulled mat timeGet :: rest)
      = [Effect.newCameraFrame, Effect.workerPull,
          Effect.QueueEvent (.CAMERA_FRAME { matBitmap := mat, timeGet := timeGet })]
        ++ CameraThread.Entry rest := by
  simp [CameraThread.Entry, h]

theorem Entry_pulled_empty (mat : Mat) (timeGet : Int) (rest : List LoopInput)
    (h : mat.empty = true) :
    CameraThread.Entry (LoopInput.pulled mat timeGet :: rest)
      = [Effect.newCameraFrame, Effect.workerPull, Effect.workerDeleteFrame,
          Effect.QueueEvent .CAMERA_EMPTY] := by
  simp [CameraThread.Entry, h]

theorem Entry_no_captureDelete (turns : List LoopInput) (src : String) :
    Effect.captureDelete src ∉ CameraThread.Entry turns := by
  induction turns with
  | nil => simp [CameraThread.Entry]
  | cons t rest ih =>
    cases t with
    | destroyed => simp [CameraThread.Entry]
    | pulled mat timeGet =>
      by_cases h : mat.empty <;> simp [CameraThread.Entry, h, ih]
    | threw => simp [CameraThread.Entry, ih]

theorem Entry_pulls_of_frames (pulls : List (Mat × Int))
    (h : ∀ p ∈ pulls, p.1.empty = false) :
    workerPulls (CameraThread.Entry (pulls.map pulledTurn)) = pulls.length
      ∧ queued (CameraThread.Entry (pulls.map pulledTurn)) = pulls.map frameEvent := by
  induction pulls with
  | nil => simp [CameraThread.Entry, workerPulls, queued]
  | cons p rest ih =>
    have hp : p.1.empty = false := h p (by simp)
    obtain ⟨hr1, hr2⟩ := ih (fun q hq => h q (by simp [hq]))
    rw [List.map_cons, pulledTurn, Entry_pulled_frame _ _ _ hp]
    constructor
    · rw [workerPulls_append, hr1]
      simp [workerPulls]
      omega
    · rw [queued_append, hr2]
      simp [queued, frameEvent]

theorem Entry_no_SetBitmap (turns : List LoopInput) :
    setBitmapCalls (CameraThread.Entry turns) = [] := by
  induction turns with
  | nil => simp [CameraThread.Entry, setBitmapCalls]
  | cons t rest ih =>
    cases t with
    | destroyed => simp [CameraThread.Entry, setBitmapCalls]
    | pulled mat timeGet =>
      by_cases h : mat.empty <;> simp [CameraThread.Entry, h, ih, setBitmapCalls]
    | threw => simp [CameraThread.Entry, ih, setBitmapCalls]

theorem ConvertMatToBitmap_quiet (cv : Converter) (mat : Mat) (time timeConvert : Int) :
    queued (OpenCVFrame.ConvertMatToBitmap cv mat time timeConvert).2 = []
      ∧ setBitmapCalls (OpenCVFrame.ConvertMatToBitmap cv mat time timeConvert).2 = [] := by
  unfold OpenCVFrame.ConvertMatToBitmap
  by_cases h1 : mat.empty
  · simp [h1, queued, setBitmapCalls]
  · by_cases h2 : (cv.ConvertMatBitmapTowxBitmap mat (cv.newBitmap mat.cols mat.rows 24)).1
    · simp [h1, h2, queued, setBitmapCalls]
    · simp [h1, h2, queued, setBitmapCalls]

theorem OnCameraFrame_live (cv : Converter) (s : OpenCVFrame) (f : CameraFrame) (time : Int)
    (h : s.m_mode = Mode.WebCam ∨ s.m_mode = Mode.IPCamera) :
    (s.OnCameraFrame cv f time).1.m_mode = s.m_mode
      ∧ (s.OnCameraFrame cv f time).1.m_bitmapPanel.shows
          = presented cv (f.matBitmap, f.timeGet) time
      ∧ queued (s.OnCameraFrame cv f time).2 = []
      ∧ setBitmapCalls (s.OnCameraFrame cv f time).2
          = [presented cv (f.matBitmap, f.timeGet) time] := by
  have hq := ConvertMatToBitmap_quiet cv f.matBitmap time 0
  have hm : (s.m_mode != Mode.IPCamera && s.m_mode != Mode.WebCam) = false := by
    rcases h with h | h <;> simp [h]
  unfold OpenCVFrame.OnCameraFrame presented
  rw [hm]
  by_cases hok : (OpenCVFrame.ConvertMatToBitmap cv f.matBitmap time 0).1.1.IsOk
  · simp [hok, queued_append, setBitmapCalls_append, hq.1, hq.2, queued, setBitmapCalls,
      wxBitmapFromOpenCVPanel.shows, wxBitmapFromOpenCVPanel.SetBitmap]
  · simp [hok, queued_append, setBitmapCalls_append, hq.1, hq.2, queued, setBitmapCalls,
      wxBitmapFromOpenCVPanel.shows, wxBitmapFromOpenCVPanel.SetBitmap]

/-- What a live session shows after a frame whose conversion is reported as failed: the
bitmap the converter left, with the acquisition time, whenever that bitmap is valid. -/
theorem OnCameraFrame_failed_conversion (cv : Converter) (s : OpenCVFrame) (f : CameraFrame)
    (time : Int) (h : s.m_mode = Mode.WebCam ∨ s.m_mode = Mode.IPCamera)
    (hmat : f.matBitmap.empty = false)
    (hfail : (cv.ConvertMatBitmapTowxBitmap f.matBitmap
      (cv.newBitmap f.matBitmap.cols f.matBitmap.rows 24)).1 = false) :
    (s.OnCameraFrame cv f time).1.m_bitmapPanel.shows
      = if (cv.ConvertMatBitmapTowxBitmap f.matBitmap
            (cv.newBitmap f.matBitmap.cols f.matBitmap.rows 24)).2.IsOk
        then ((cv.ConvertMatBitmapTowxBitmap f.matBitmap
            (cv.newBitmap f.matBitmap.cols f.matBitmap.rows 24)).2, f.timeGet, 0)
        else (wxBitmap.null, 0, 0) := by
  rw [(OnCameraFrame_live cv s f time h).2.1]
  simp [presented, OpenCVFrame.ConvertMatToBitmap, hmat, hfail]

/-- Handling a queue that holds only frame events, in a live mode: every event reaches
`SetBitmap`, in queue order, and the panel ends with what the last one gave. -/
theorem dispatchAll_frames (cv : Converter) (frames : List ((Mat × Int) × Int)) :
    ∀ b : App, (b.frame.m_mode = Mode.WebCam ∨ b.frame.m_mode = Mode.IPCamera) →
      b.pending = frames.map (fun f => frameEvent f.1) →
      setBitmapCalls (b.dispatchAll cv (frames.map Prod.snd)).trace
          = setBitmapCalls b.trace ++ frames.map (fun f => presented cv f.1 f.2)
        ∧ (b.dispatchAll cv (frames.map Prod.snd)).pending = []
        ∧ (b.dispatchAll cv (frames.map Prod.snd)).frame.m_bitmapPanel.shows
          = (frames.map (fun f => presented cv f.1 f.2)).foldl (fun _ x => x)
              b.frame.m_bitmapPanel.shows := by
  induction frames with
  | nil =>
    intro b _ hp
    simpa [App.dispatchAll] using hp
  | cons f rest ih =>
    intro b hmode hp
    have hlive := OnCameraFrame_live cv b.frame { matBitmap := f.1.1, timeGet := f.1.2 } f.2 hmode
    obtain ⟨h1, h2, h3, h4⟩ := hlive
    have hd : b.dispatch cv f.2
        = { frame := (b.frame.OnCameraFrame cv { matBitmap := f.1.1, timeGet := f.1.2 } f.2).1
            pending := rest.map (fun f => frameEvent f.1)
            trace := b.trace
              ++ (b.frame.OnCameraFrame cv { matBitmap := f.1.1, timeGet := f.1.2 } f.2).2 } := by
      simp [App.dispatch, hp, frameEvent, App.user, OpenCVFrame.handle, h3]
    have hr := ih (b.dispatch cv f.2) (by rw [hd]; simpa [h1] using hmode) (by rw [hd])
    simp only [List.map_cons, App.dispatchAll]
    refine ⟨?_, hr.2.1, ?_⟩
    · rw [hr.1, hd]
      simp [setBitmapCalls_append, h4]
    · rw [hr.2.2, hd]
      simp [h2]

/-! ## Lemmas on `Clear` and the open operations -/

/-- The state `Clear()` leaves is the same whatever the state before. -/
theorem Clear_state_eq (s s' : OpenCVFrame) : s.Clear.1 = s'.Clear.1 := by
  cases hs : s.m_cameraThread <;> cases hs' : s'.m_cameraThread <;>
    simp [OpenCVFrame.Clear, OpenCVFrame.DeleteCameraThread, OpenCVFrame.UpdateFrameTitle,
      wxBitmapFromOpenCVPanel.SetBitmap, wxBitmap.IsOk, hs, hs']

theorem Clear_state_fields (s : OpenCVFrame) :
    s.Clear.1.m_mode = Mode.Empty ∧ s.Clear.1.m_videoCapture = none
      ∧ s.Clear.1.m_cameraThread = none
      ∧ s.Clear.1.m_bitmapPanel.shows = (wxBitmap.null, 0, 0) := by
  cases hs : s.m_cameraThread <;>
    simp [OpenCVFrame.Clear, OpenCVFrame.DeleteCameraThread, OpenCVFrame.UpdateFrameTitle,
      wxBitmapFromOpenCVPanel.SetBitmap, wxBitmapFromOpenCVPanel.shows, hs]

theorem StartCameraCapture_state_eq (s s' : OpenCVFrame) (address : String)
    (resolution : Int × Int) (useMJPEG : Bool) (cap : VideoCapture) (runOk : Bool) :
    (s.StartCameraCapture address resolution useMJPEG cap runOk).1.1
        = (s'.StartCameraCapture address resolution useMJPEG cap runOk).1.1
      ∧ (s.StartCameraCapture address resolution useMJPEG cap runOk).2
        = (s'.StartCameraCapture address resolution useMJPEG cap runOk).2 := by
  have h := Clear_state_eq s s'
  by_cases h1 : cap.isOpened <;> by_cases h2 : runOk <;>
    simp [OpenCVFrame.StartCameraCapture, OpenCVFrame.StartCameraThread, h1, h2, h]

theorem StartCameraCapture_trace (s : OpenCVFrame) (address : String)
    (resolution : Int × Int) (useMJPEG : Bool) (cap : VideoCapture) (runOk : Bool) :
    ∃ rest, (s.StartCameraCapture address resolution useMJPEG cap runOk).1.2
      = s.Clear.2 ++ Effect.captureNew cap.source :: rest := by
  by_cases h1 : cap.isOpened <;> by_cases h2 : runOk <;>
    simp [OpenCVFrame.StartCameraCapture, OpenCVFrame.StartCameraThread, h1, h2]

theorem StartCameraCapture_not_opened (s : OpenCVFrame) (address : String)
    (resolution : Int × Int) (useMJPEG : Bool) (cap : VideoCapture) (runOk : Bool)
    (h : cap.isOpened = false) :
    (s.StartCameraCapture address resolution useMJPEG cap runOk).1.1 = s.Clear.1
      ∧ (s.StartCameraCapture address resolution useMJPEG cap runOk).2 = false := by
  simp [OpenCVFrame.StartCameraCapture, h]

theorem sessionAgrees_congr (s' s : OpenCVFrame) (hm : s'.m_mode = s.m_mode)
    (ht : s'.m_cameraThread = s.m_cameraThread)
    (hc : s'.m_videoCapture.isSome = s.m_videoCapture.isSome) :
    s'.sessionAgrees = s.sessionAgrees := by
  have hn : s'.m_videoCapture.isNone = s.m_videoCapture.isNone := by
    cases h1 : s'.m_videoCapture <;> cases h2 : s.m_videoCapture <;> simp [h1, h2] at hc ⊢
  simp only [OpenCVFrame.sessionAgrees, hm, ht, hc, hn]

theorem Clear_sessionAgrees (s : OpenCVFrame) : s.Clear.1.sessionAgrees = true := by
  obtain ⟨h1, h2, h3, _⟩ := Clear_state_fields s
  simp [OpenCVFrame.sessionAgrees, h1, h2, h3]

theorem ShowVideoFrame_fields (cv : Converter) (s : OpenCVFrame) (n timeGet time : Int) :
    (s.ShowVideoFrame cv n timeGet time).1.m_mode = s.m_mode
      ∧ (s.ShowVideoFrame cv n timeGet time).1.m_cameraThread = s.m_cameraThread
      ∧ (s.ShowVideoFrame cv n timeGet time).1.m_videoCapture.isSome
        = s.m_videoCapture.isSome := by
  unfold OpenCVFrame.ShowVideoFrame
  cases hc : s.m_videoCapture with
  | none => simp [hc]
  | some cap =>
    dsimp only
    split_ifs <;> simp

theorem StartCameraCapture_sessionAgrees (s : OpenCVFrame) (address : String)
    (resolution : Int × Int) (useMJPEG : Bool) (cap : VideoCapture) (runOk : Bool) :
    ((s.StartCameraCapture address resolution useMJPEG cap runOk).2 = false →
        (s.StartCameraCapture address resolution useMJPEG cap runOk).1.1.sessionAgrees = true)
      ∧ ((s.StartCameraCapture address resolution useMJPEG cap runOk).2 = true →
        (s.StartCameraCapture address resolution useMJPEG cap runOk).1.1.m_videoCapture.isSome
            = true
          ∧ (s.StartCameraCapture address resolution useMJPEG cap
              runOk).1.1.m_cameraThread.isSome = true) := by
  obtain ⟨h1, h2, h3, _⟩ := Clear_state_fields s
  by_cases hc : cap.isOpened <;> by_cases hr : runOk
  · simp [OpenCVFrame.StartCameraCapture, OpenCVFrame.StartCameraThread,
      OpenCVFrame.DeleteCameraThread, hc, hr, h3]
  · simp [OpenCVFrame.StartCameraCapture, OpenCVFrame.StartCameraThread, hc, hr,
      Clear_sessionAgrees]
  · simp [OpenCVFrame.StartCameraCapture, hc, Clear_sessionAgrees]
  · simp [OpenCVFrame.StartCameraCapture, hc, Clear_sessionAgrees]

/-- Every handler keeps the agreement of mode and resources, except that `OnVideo` needs a
state without a worker for it. -/
theorem sessionAgrees_preserved (cv : Converter) (s : OpenCVFrame) (a : HandlerCall)
    (h : s.sessionAgrees = true)
    (hv : ∀ fileName cap timeGet time, a = HandlerCall.OnVideo fileName cap timeGet time →
      s.m_cameraThread = none) :
    (s.handle cv a).1.sessionAgrees = true := by
  cases a with
  | OnImage fileName mat timeGet time =>
    simp only [OpenCVFrame.handle, OpenCVFrame.OnImage]
    split_ifs
    · exact h
    · exact h
    · exact Clear_sessionAgrees _
    · simp [OpenCVFrame.sessionAgrees, OpenCVFrame.UpdateFrameTitle]
  | OnVideo fileName cap timeGet time =>
    have hnone := hv fileName cap timeGet time rfl
    simp only [OpenCVFrame.handle, OpenCVFrame.OnVideo]
    split_ifs
    · exact h
    · exact Clear_sessionAgrees _
    · refine (sessionAgrees_congr _ _ rfl rfl rfl).trans ?_
      refine (sessionAgrees_congr _ _ (ShowVideoFrame_fields cv _ _ _ _).1
        (ShowVideoFrame_fields cv _ _ _ _).2.1 (ShowVideoFrame_fields cv _ _ _ _).2.2).trans ?_
      simp [OpenCVFrame.sessionAgrees, OpenCVFrame.UpdateFrameTitle, hnone]
  | OnWebCam resolutionIndex useMJPEG cap runOk =>
    have hs := StartCameraCapture_sessionAgrees s ""
      (OpenCVFrame.resolutions.getD resolutionIndex.toNat (0, 0)) useMJPEG cap runOk
    simp only [OpenCVFrame.handle, OpenCVFrame.OnWebCam]
    split_ifs with h1 h2
    · exact h
    · have := hs.2 h2
      simp only [OpenCVFrame.sessionAgrees, OpenCVFrame.UpdateFrameTitle, this.1, this.2,
        Bool.and_self]
    · exact hs.1 (by simpa using h2)
  | OnIPCamera address cap runOk =>
    have hs := StartCameraCapture_sessionAgrees s address (-1, -1) false cap runOk
    simp only [OpenCVFrame.handle, OpenCVFrame.OnIPCamera]
    split_ifs with h1 h2
    · exact h
    · have := hs.2 h2
      simp only [OpenCVFrame.sessionAgrees, OpenCVFrame.UpdateFrameTitle, this.1, this.2,
        Bool.and_self]
    · exact hs.1 (by simpa using h2)
  | OnClear => exact Clear_sessionAgrees s
  | OnVideoSetFrame n timeGet time =>
    simp only [OpenCVFrame.handle, OpenCVFrame.OnVideoSetFrame]
    split_ifs
    · exact h
    · exact h
    · refine (sessionAgrees_congr _ _ (ShowVideoFrame_fields cv _ _ _ _).1
        (ShowVideoFrame_fields cv _ _ _ _).2.1 (ShowVideoFrame_fields cv _ _ _ _).2.2).trans ?_
      exact (sessionAgrees_congr _ s rfl rfl rfl).trans h
  | OnCameraFrame frame time =>
    simp only [OpenCVFrame.handle, OpenCVFrame.OnCameraFrame]
    split_ifs
    · exact h
    · simpa [OpenCVFrame.sessionAgrees] using h
    · simpa [OpenCVFrame.sessionAgrees] using h
  | OnCameraEmpty => exact Clear_sessionAgrees s

/-! ## Lemmas on the ownership of the payload and on painting -/

theorem deletedFrames_append (a b : List Effect) :
    deletedFrames (a ++ b) = deletedFrames a ++ deletedFrames b := by
  induction a with
  | nil => rfl
  | cons e a ih => cases e <;> simp [deletedFrames, ih]

theorem ConvertMatToBitmap_deletes_nothing (cv : Converter) (mat : Mat)
    (time timeConvert : Int) :
    deletedFrames (OpenCVFrame.ConvertMatToBitmap cv mat time timeConvert).2 = [] := by
  unfold OpenCVFrame.ConvertMatToBitmap
  by_cases h1 : mat.empty
  · simp [h1, deletedFrames]
  · by_cases h2 : (cv.ConvertMatBitmapTowxBitmap mat (cv.newBitmap mat.cols mat.rows 24)).1
    · simp [h1, h2, deletedFrames]
    · simp [h1, h2, deletedFrames]

/-- On each of its branches (stray frame, conversion with a valid bitmap, conversion
without one) `OnCameraFrame` deletes the payload of its event once and nothing else. -/
theorem OnCameraFrame_deletes_payload_once (cv : Converter) (s : OpenCVFrame)
    (frame : CameraFrame) (time : Int) :
    deletedFrames (s.OnCameraFrame cv frame time).2 = [frame] := by
  have hq := ConvertMatToBitmap_deletes_nothing cv frame.matBitmap time 0
  unfold OpenCVFrame.OnCameraFrame
  by_cases hm : (s.m_mode != Mode.IPCamera && s.m_mode != Mode.WebCam) = true
  · simp [hm, deletedFrames]
  · by_cases hok : (OpenCVFrame.ConvertMatToBitmap cv frame.matBitmap time 0).1.1.IsOk = true
    · simp [hm, hok, deletedFrames, deletedFrames_append, hq]
    · simp [hm, hok, deletedFrames, deletedFrames_append, hq]

/-- A loop turn whose pull succeeds allocates one payload and posts it without deleting
it; a turn whose pull is empty allocates one payload, deletes it once and posts the
event without payload. -/
theorem Entry_turn_without_exception (mat : Mat) (timeGet : Int) :
    (mat.empty = false →
        CameraThread.Entry [LoopInput.pulled mat timeGet]
          = [Effect.newCameraFrame, Effect.workerPull,
              Effect.QueueEvent (.CAMERA_FRAME { matBitmap := mat, timeGet := timeGet })])
      ∧ (mat.empty = true →
        CameraThread.Entry [LoopInput.pulled mat timeGet]
          = [Effect.newCameraFrame, Effect.workerPull, Effect.workerDeleteFrame,
              Effect.QueueEvent .CAMERA_EMPTY]) := by
  constructor <;> intro h <;> simp [CameraThread.Entry, h]

theorem OnPaint_rects (p : wxBitmapFromOpenCVPanel) (w h d : Nat) (pixels : List Nat)
    (clientSize viewStart pixelsPerUnit : Int × Int) (drawTime ox oy : Int)
    (hb : p.m_bitmap = wxBitmap.image w h d pixels)
    (hox : ox = viewStart.1 * pixelsPerUnit.1) (hoy : oy = viewStart.2 * pixelsPerUnit.2) :
    paintedRects (p.OnPaint clientSize viewStart pixelsPerUnit drawTime)
      = (if (w : Int) - ox < clientSize.1 then
            [{ x := w, y := oy, width := clientSize.1 - w + ox, height := clientSize.2 }]
          else [])
        ++ (if (h : Int) - oy < clientSize.2 then
            [{ x := ox, y := h, width := w, height := clientSize.2 - h + oy }]
          else []) := by
  subst hox hoy
  unfold wxBitmapFromOpenCVPanel.OnPaint
  simp only [hb, wxBitmap.IsOk, wxBitmap.GetWidth, wxBitmap.GetHeight, Bool.not_true,
    Bool.false_eq_true, if_false]
  split_ifs <;> simp [paintedRects]

/-! ## Claims -/

/-- C1. Cancel-then-close ordering: for every session state with a worker and every number
of successful pulls made before, the effects of those pulls followed by the effects of
`Clear()` split into the pulls, the request for cancellation (`Delete()` entered), what the
worker still does, the return of `Delete()` (worker exited), and a rest; the capture is
deleted nowhere before `Delete()` has returned, the rest contains no pull by the worker,
and the deletion of the capture resource, if there is one, lies in the rest. -/
theorem C1_cancel_then_close (s : OpenCVFrame) (t : CameraThread) (pulls : List (Mat × Int))
    (hw : s.m_cameraThread = some t) (hp : ∀ p ∈ pulls, p.1.empty = false) :
    ∃ before inside after,
      CameraThread.Entry (pulls.map pulledTurn) ++ s.Clear.2
          = before ++ [Effect.threadDeleteBegin] ++ inside ++ [Effect.threadDeleteEnd] ++ after
        ∧ workerPulls before = pulls.length
        ∧ (∀ src, Effect.captureDelete src ∉
            before ++ [Effect.threadDeleteBegin] ++ inside ++ [Effect.threadDeleteEnd])
        ∧ Effect.workerPull ∉ after
        ∧ (∀ c, s.m_videoCapture = some c → Effect.captureDelete c.source ∈ after) := by
  refine ⟨CameraThread.Entry (pulls.map pulledTurn),
    CameraThread.Entry (t.inFlight.toList ++ [LoopInput.destroyed]),
    [Effect.threadFree] ++ (match s.m_videoCapture with
      | some c => [Effect.captureDelete c.source]
      | none => []) ++ [Effect.SetBitmap wxBitmap.null 0 0], ?_, ?_, ?_, ?_, ?_⟩
  · simp [OpenCVFrame.Clear, OpenCVFrame.DeleteCameraThread, hw, CameraThread.Delete]
  · exact (Entry_pulls_of_frames pulls hp).1
  · intro src
    simp [Entry_no_captureDelete]
  · cases hc : s.m_videoCapture <;> simp
  · intro c hc
    simp [hc]

/-- Witness of C1: the live session whose worker is inside a pull, after two successful
pulls. -/
theorem C1_cancel_then_close_witness :
    liveSessionPulling.m_cameraThread
        = some { m_camera := "camA", inFlight := some (LoopInput.pulled (pixel 7) 5) }
      ∧ (∀ p ∈ [(pixel 1, (3 : Int)), (pixel 2, 4)], p.1.empty = false)
      ∧ ∃ before inside after,
        CameraThread.Entry ([(pixel 1, (3 : Int)), (pixel 2, 4)].map pulledTurn)
            ++ liveSessionPulling.Clear.2
          = before ++ [Effect.threadDeleteBegin] ++ inside ++ [Effect.threadDeleteEnd] ++ after
        ∧ workerPulls before = [(pixel 1, (3 : Int)), (pixel 2, 4)].length
        ∧ (∀ src, Effect.captureDelete src ∉
            before ++ [Effect.threadDeleteBegin] ++ inside ++ [Effect.threadDeleteEnd])
        ∧ Effect.workerPull ∉ after
        ∧ (∀ c, liveSessionPulling.m_videoCapture = some c →
            Effect.captureDelete c.source ∈ after) :=
  ⟨rfl, by decide,
    C1_cancel_then_close liveSessionPulling _ [(pixel 1, 3), (pixel 2, 4)] rfl (by decide)⟩

/-- C2. A late event of a cleared session is not discarded once the mode no longer tells
the sessions apart. First run: `Clear()` inside the reopening of the web camera has
returned, the new session `camB` is running, the frame posted by the worker of `camA` is
still pending, and handling it puts that frame into the presenter. Second run: the
CAMERA_EMPTY event of the worker of `camA` is handled after the image `i.png` was opened
and removes the image from the presenter. -/
theorem C2_stale_event_changes_presenter :
    ((reopenWhilePulling (pixel 7)).frame.m_mode = Mode.WebCam
      ∧ (reopenWhilePulling (pixel 7)).frame.m_cameraThread
          = some { m_camera := "camB", inFlight := none }
      ∧ (reopenWhilePulling (pixel 7)).pending
          = [wxThreadEvent.CAMERA_FRAME { matBitmap := pixel 7, timeGet := 5 }]
      ∧ (reopenWhilePulling (pixel 7)).frame.m_bitmapPanel
          = { m_bitmap := wxBitmap.null, m_timeGetCVBitmap := 0, m_timeConvertBitmap := 0,
              virtualSize := (1, 1) }
      ∧ ((reopenWhilePulling (pixel 7)).dispatch copyConverter 3).frame.m_bitmapPanel
          = { m_bitmap := wxBitmap.image 1 1 24 [7], m_timeGetCVBitmap := 5,
              m_timeConvertBitmap := 3, virtualSize := (1, 1) })
    ∧ (imageWhilePulling.frame.m_mode = Mode.Image
      ∧ imageWhilePulling.frame.m_cameraThread = none
      ∧ imageWhilePulling.pending = [wxThreadEvent.CAMERA_EMPTY]
      ∧ imageWhilePulling.frame.m_bitmapPanel
          = { m_bitmap := wxBitmap.image 1 1 24 [9], m_timeGetCVBitmap := 4,
              m_timeConvertBitmap := 2, virtualSize := (1, 1) }
      ∧ (imageWhilePulling.dispatch copyConverter 3).frame.m_bitmapPanel
          = { m_bitmap := wxBitmap.null, m_timeGetCVBitmap := 0, m_timeConvertBitmap := 0,
              virtualSize := (1, 1) }) := by
  decide

/-- C3, as the code has it. The event queue keeps every posted frame: when the worker of a
live session posts the frames F1..Fk while no event is pending and the main thread then
handles the k events, each of them is handed to `SetBitmap` in posting order (as its
converted bitmap with its acquisition time, or as the empty bitmap when the conversion
gave no valid bitmap); the queue is then empty and the presenter is left with what Fk
gave. -/
theorem C3_every_pending_frame_is_presented (cv : Converter) (a : App) (t : CameraThread)
    (frames : List ((Mat × Int) × Int))
    (hmode : a.frame.m_mode = Mode.WebCam ∨ a.frame.m_mode = Mode.IPCamera)
    (ht : a.frame.m_cameraThread = some t) (hpend : a.pending = [])
    (hne : ∀ f ∈ frames, f.1.1.empty = false) :
    (a.worker (frames.map fun f => pulledTurn f.1) none).pending
        = frames.map (fun f => frameEvent f.1)
      ∧ setBitmapCalls (((a.worker (frames.map fun f => pulledTurn f.1) none).dispatchAll cv
          (frames.map Prod.snd)).trace)
        = setBitmapCalls a.trace ++ frames.map (fun f => presented cv f.1 f.2)
      ∧ ((a.worker (frames.map fun f => pulledTurn f.1) none).dispatchAll cv
          (frames.map Prod.snd)).pending = []
      ∧ ∀ pre last, frames = pre ++ [last] →
          ((a.worker (frames.map fun f => pulledTurn f.1) none).dispatchAll cv
            (frames.map Prod.snd)).frame.m_bitmapPanel.shows = presented cv last.1 last.2 := by
  have hE := Entry_pulls_of_frames (frames.map Prod.fst) (by
    intro p hp
    obtain ⟨f, hf, rfl⟩ := List.mem_map.1 hp
    exact hne f hf)
  have hmap : (frames.map Prod.fst).map pulledTurn = frames.map fun f => pulledTurn f.1 := by
    simp [List.map_map, Function.comp_def]
  have hmap2 : (frames.map Prod.fst).map frameEvent = frames.map fun f => frameEvent f.1 := by
    simp [List.map_map, Function.comp_def]
  rw [hmap, hmap2] at hE
  have hw : a.worker (frames.map fun f => pulledTurn f.1) none
      = { frame := { a.frame with m_cameraThread := some { t with inFlight := none } }
          pending := frames.map (fun f => frameEvent f.1)
          trace := a.trace ++ CameraThread.Entry (frames.map fun f => pulledTurn f.1) } := by
    simp [App.worker, ht, hpend, hE.2]
  have hd := dispatchAll_frames cv frames
    (a.worker (frames.map fun f => pulledTurn f.1) none)
    (by rw [hw]; exact hmode) (by rw [hw])
  refine ⟨by rw [hw], ?_, hd.2.1, ?_⟩
  · rw [hd.1, hw]
    simp [setBitmapCalls_append, Entry_no_SetBitmap]
  · intro pre last hfr
    rw [hd.2.2, hfr]
    simp [List.foldl_append]

/-- Witness of C3: two frames posted to the live session before any is handled. -/
theorem C3_every_pending_frame_is_presented_witness :
    (liveApp.frame.m_mode = Mode.WebCam ∨ liveApp.frame.m_mode = Mode.IPCamera)
      ∧ liveApp.frame.m_cameraThread = some { m_camera := "camA", inFlight := none }
      ∧ liveApp.pending = []
      ∧ setBitmapCalls (((liveApp.worker
            ([((pixel 1, (3 : Int)), (8 : Int)), ((pixel 2, 4), 9)].map fun f => pulledTurn f.1)
            none).dispatchAll copyConverter
            ([((pixel 1, (3 : Int)), (8 : Int)), ((pixel 2, 4), 9)].map Prod.snd)).trace)
          = setBitmapCalls liveApp.trace
            ++ [((pixel 1, (3 : Int)), (8 : Int)), ((pixel 2, 4), 9)].map
              (fun f => presented copyConverter f.1 f.2) :=
  ⟨by decide, rfl, rfl,
    (C3_every_pending_frame_is_presented copyConverter liveApp _
      [((pixel 1, 3), 8), ((pixel 2, 4), 9)] (by decide) rfl rfl (by decide)).2.1⟩

/-- Counterexample to C3 as stated: the worker posts F1 and F2 to the live session before
the main thread handles any event; handling the two events calls `SetBitmap` twice, first
with the bitmap of F1 and then with the bitmap of F2. -/
theorem C3_earlier_frame_is_presented :
    (liveApp.worker [LoopInput.pulled (pixel 1) 3, LoopInput.pulled (pixel 2) 4] none).pending
        = [wxThreadEvent.CAMERA_FRAME { matBitmap := pixel 1, timeGet := 3 },
            wxThreadEvent.CAMERA_FRAME { matBitmap := pixel 2, timeGet := 4 }]
      ∧ setBitmapCalls
          (((liveApp.worker [LoopInput.pulled (pixel 1) 3, LoopInput.pulled (pixel 2) 4]
            none).dispatchAll copyConverter [8, 9]).trace)
        = [(wxBitmap.image 1 1 24 [1], 3, 8), (wxBitmap.image 1 1 24 [2], 4, 9)] := by
  decide

/-- C4. The session invariant fails after two handlers: `OnWebCam` opens the camera `camA`
and starts its worker, then `OnVideo` opens `v.avi` without calling `Clear()`; the mode is
Video while the worker of `camA` is still present. -/
theorem C4_video_over_live_keeps_worker :
    (OpenCVFrame.run copyConverter OpenCVFrame.initial
        [HandlerCall.OnWebCam 1 false (openedCapture "camA" []) true,
          HandlerCall.OnVideo "v.avi" (openedCapture "v.avi" [pixel 10, pixel 11]) 4 2]).m_mode
        = Mode.Video
      ∧ (OpenCVFrame.run copyConverter OpenCVFrame.initial
        [HandlerCall.OnWebCam 1 false (openedCapture "camA" []) true,
          HandlerCall.OnVideo "v.avi" (openedCapture "v.avi" [pixel 10, pixel 11]) 4 2]).m_cameraThread
        = some { m_camera := "camA", inFlight := none }
      ∧ (OpenCVFrame.run copyConverter OpenCVFrame.initial
        [HandlerCall.OnWebCam 1 false (openedCapture "camA" []) true,
          HandlerCall.OnVideo "v.avi" (openedCapture "v.avi" [pixel 10, pixel 11]) 4 2]).sessionAgrees
        = false := by
  decide

/-- C5, as the code has it. Once the user has chosen a source, `OnWebCam` and `OnIPCamera`
perform `Clear()` first and create the new capture only after it; `OnImage` reads the image
first and performs `Clear()` right after a successful read, before it converts and shows
the image. For these three operations the state after the handler does not depend on the
state before it. -/
theorem C5_clear_then_open (cv : Converter) (s s' : OpenCVFrame) (resolutionIndex : Int)
    (useMJPEG runOk : Bool) (cap : VideoCapture) (address fileName : String) (mat : Mat)
    (timeGet time : Int)
    (hidx : resolutionIndex ≠ -1) (haddr : address.isEmpty = false)
    (hfile : fileName.isEmpty = false) (hmat : mat.empty = false) :
    (∃ rest, (s.OnWebCam resolutionIndex useMJPEG cap runOk).2
        = s.Clear.2 ++ Effect.captureNew cap.source :: rest)
      ∧ (∃ rest, (s.OnIPCamera address cap runOk).2
        = s.Clear.2 ++ Effect.captureNew cap.source :: rest)
      ∧ (∃ rest, (s.OnImage cv fileName mat timeGet time).2
        = Effect.imread fileName :: s.Clear.2 ++ rest)
      ∧ (s.OnWebCam resolutionIndex useMJPEG cap runOk).1
        = (s'.OnWebCam resolutionIndex useMJPEG cap runOk).1
      ∧ (s.OnIPCamera address cap runOk).1 = (s'.OnIPCamera address cap runOk).1
      ∧ (s.OnImage cv fileName mat timeGet time).1
        = (s'.OnImage cv fileName mat timeGet time).1 := by
  have hc := Clear_state_eq s s'
  refine ⟨?_, ?_, ?_, ?_, ?_, ?_⟩
  · obtain ⟨rest, hr⟩ := StartCameraCapture_trace s ""
      (OpenCVFrame.resolutions.getD resolutionIndex.toNat (0, 0)) useMJPEG cap runOk
    refine ⟨rest, ?_⟩
    unfold OpenCVFrame.OnWebCam
    rw [if_neg hidx]
    dsimp only
    split_ifs <;> exact hr
  · obtain ⟨rest, hr⟩ := StartCameraCapture_trace s address (-1, -1) false cap runOk
    refine ⟨rest, ?_⟩
    unfold OpenCVFrame.OnIPCamera
    simp only [haddr, Bool.false_eq_true, if_false]
    split_ifs <;> exact hr
  · unfold OpenCVFrame.OnImage
    by_cases hok : (OpenCVFrame.ConvertMatToBitmap cv mat time 0).1.1.IsOk <;>
      simp [hfile, hmat, hok]
  · obtain ⟨h1, h2⟩ := StartCameraCapture_state_eq s s' ""
      (OpenCVFrame.resolutions.getD resolutionIndex.toNat (0, 0)) useMJPEG cap runOk
    unfold OpenCVFrame.OnWebCam
    rw [if_neg hidx, if_neg hidx]
    dsimp only
    rw [h1, h2]
    split_ifs <;> first | rfl | exact h1
  · obtain ⟨h1, h2⟩ := StartCameraCapture_state_eq s s' address (-1, -1) false cap runOk
    unfold OpenCVFrame.OnIPCamera
    simp only [haddr, Bool.false_eq_true, if_false]
    rw [h1, h2]
    split_ifs <;> first | rfl | exact h1
  · unfold OpenCVFrame.OnImage
    by_cases hok : (OpenCVFrame.ConvertMatToBitmap cv mat time 0).1.1.IsOk <;>
      simp [hfile, hmat, hok, hc]

/-- Witness of C5: the live session and the video session as the two states before. -/
theorem C5_clear_then_open_witness :
    (1 : Int) ≠ -1 ∧ "rtsp://cam".isEmpty = false ∧ "i.png".isEmpty = false
      ∧ (pixel 9).empty = false
      ∧ (liveSession.OnWebCam 1 false (openedCapture "camB" []) true).1
        = (videoSession.OnWebCam 1 false (openedCapture "camB" []) true).1
      ∧ (liveSession.OnIPCamera "rtsp://cam" (openedCapture "camB" []) true).1
        = (videoSession.OnIPCamera "rtsp://cam" (openedCapture "camB" []) true).1
      ∧ (liveSession.OnImage copyConverter "i.png" (pixel 9) 4 2).1
        = (videoSession.OnImage copyConverter "i.png" (pixel 9) 4 2).1 :=
  ⟨by decide, by decide, by decide, by decide,
    (C5_clear_then_open copyConverter liveSession videoSession 1 false true
      (openedCapture "camB" []) "rtsp://cam" "i.png" (pixel 9) 4 2
      (by decide) (by decide) (by decide) (by decide)).2.2.2⟩

/-- Counterexample to C5 as stated: in the live session `OnImage` reads the image before
`Clear()` cancels the worker and deletes the capture, and a successful `OnVideo` performs no
`Clear()` at all, so that the worker of `camA` outlives it and the state differs from the
one the same call gives from the initial state. -/
theorem C5_open_without_prior_clear :
    (liveSession.OnImage copyConverter "i.png" (pixel 9) 4 2).2
        = [Effect.imread "i.png", Effect.threadDeleteBegin, Effect.threadDeleteEnd,
            Effect.threadFree, Effect.captureDelete "camA", Effect.SetBitmap wxBitmap.null 0 0,
            Effect.convert (pixel 9), Effect.SetBitmap (wxBitmap.image 1 1 24 [9]) 4 2]
      ∧ (liveSession.OnVideo copyConverter "v.avi" (openedCapture "v.avi" [pixel 10]) 4 2).2
        = [Effect.captureNew "v.avi", Effect.capturePull, Effect.convert (pixel 10),
            Effect.SetBitmap (wxBitmap.image 1 1 24 [10]) 4 2]
      ∧ (liveSession.OnVideo copyConverter "v.avi"
          (openedCapture "v.avi" [pixel 10]) 4 2).1.m_cameraThread
        = some { m_camera := "camA", inFlight := none }
      ∧ (liveSession.OnVideo copyConverter "v.avi" (openedCapture "v.avi" [pixel 10]) 4 2).1
        ≠ (OpenCVFrame.initial.OnVideo copyConverter "v.avi"
            (openedCapture "v.avi" [pixel 10]) 4 2).1 := by
  decide

/-- C6, as the code has it. When the chosen video file, web camera or network camera
cannot be opened (`isOpened()` is false), the handler leaves the empty session: mode Empty,
no capture resource, no worker, the presenter holding the empty bitmap with timings 0.
When `cv::imread` returns an empty matrix, `OnImage` returns with the state as it was
before the call. -/
theorem C6_open_failure (cv : Converter) (s : OpenCVFrame) (resolutionIndex : Int)
    (useMJPEG runOk : Bool) (cap : VideoCapture) (address fileName : String) (mat : Mat)
    (timeGet time : Int)
    (hidx : resolutionIndex ≠ -1) (haddr : address.isEmpty = false)
    (hfile : fileName.isEmpty = false) (hcap : cap.isOpened = false)
    (hmat : mat.empty = true) :
    (s.OnVideo cv fileName cap timeGet time).1.isEmptySession
      ∧ (s.OnWebCam resolutionIndex useMJPEG cap runOk).1.isEmptySession
      ∧ (s.OnIPCamera address cap runOk).1.isEmptySession
      ∧ (s.OnImage cv fileName mat timeGet time).1 = s := by
  have hclear : s.Clear.1.isEmptySession := Clear_state_fields s
  refine ⟨?_, ?_, ?_, ?_⟩
  · unfold OpenCVFrame.OnVideo
    simpa [hfile, hcap] using hclear
  · obtain ⟨h1, h2⟩ := StartCameraCapture_not_opened s ""
      (OpenCVFrame.resolutions.getD resolutionIndex.toNat (0, 0)) useMJPEG cap runOk hcap
    unfold OpenCVFrame.OnWebCam
    rw [if_neg hidx]
    dsimp only
    rw [h2]
    simp only [Bool.false_eq_true, if_false]
    rw [h1]
    exact hclear
  · obtain ⟨h1, h2⟩ := StartCameraCapture_not_opened s address (-1, -1) false cap runOk hcap
    unfold OpenCVFrame.OnIPCamera
    simp only [haddr, Bool.false_eq_true, if_false]
    rw [h2]
    simp only [Bool.false_eq_true, if_false]
    rw [h1]
    exact hclear
  · unfold OpenCVFrame.OnImage
    simp [hfile, hmat]

/-- Witness of C6: open failures in the video session. -/
theorem C6_open_failure_witness :
    (1 : Int) ≠ -1 ∧ "rtsp://cam".isEmpty = false ∧ "x.avi".isEmpty = false
      ∧ (closedCapture "x.avi").isOpened = false ∧ Mat.none.empty = true
      ∧ (videoSession.OnVideo copyConverter "x.avi" (closedCapture "x.avi") 4 2).1.isEmptySession
      ∧ (videoSession.OnWebCam 1 false (closedCapture "x.avi") true).1.isEmptySession
      ∧ (videoSession.OnIPCamera "rtsp://cam" (closedCapture "x.avi") true).1.isEmptySession
      ∧ (videoSession.OnImage copyConverter "x.avi" Mat.none 4 2).1 = videoSession :=
  ⟨by decide, by decide, by decide, by decide, by decide,
    C6_open_failure copyConverter videoSession 1 false true (closedCapture "x.avi")
      "rtsp://cam" "x.avi" Mat.none 4 2
      (by decide) (by decide) (by decide) (by decide) (by decide)⟩

/-- Counterexample to C6 as stated: in the video session, opening an image that
`cv::imread` cannot read leaves the mode Video, the capture resource present and the
presenter holding the first frame of the video. -/
theorem C6_failed_image_read_keeps_session :
    (videoSession.OnImage copyConverter "x.png" Mat.none 4 2).1.m_mode = Mode.Video
      ∧ (videoSession.OnImage copyConverter "x.png" Mat.none 4 2).1.m_videoCapture.isSome
        = true
      ∧ (videoSession.OnImage copyConverter "x.png" Mat.none 4 2).1.m_bitmapPanel.shows
        = (wxBitmap.image 1 1 24 [10], 4, 2) := by
  decide

/-- C7. Worker loop output: for every sequence of pull results, without cancellation and
without exception, `CameraThread::Entry` posts one CAMERA_FRAME event, in pull order and
carrying the frame and its acquisition time, for each pull before the first empty one,
then one CAMERA_EMPTY event if there is an empty pull; the pulls it performs are those
and the first empty one, none after it. -/
theorem C7_worker_loop_output (pulls : List (Mat × Int)) :
    queued (CameraThread.Entry (pulls.map pulledTurn))
        = (pulls.takeWhile fun p => !p.1.empty).map frameEvent
          ++ (if pulls.all fun p => !p.1.empty then [] else [wxThreadEvent.CAMERA_EMPTY])
      ∧ workerPulls (CameraThread.Entry (pulls.map pulledTurn))
        = (pulls.takeWhile fun p => !p.1.empty).length
          + (if pulls.all fun p => !p.1.empty then 0 else 1) := by
  induction pulls with
  | nil => simp [CameraThread.Entry, workerPulls, queued]
  | cons p rest ih =>
    obtain ⟨ihq, ihp⟩ := ih
    by_cases hp : p.1.empty
    · rw [List.map_cons, pulledTurn, Entry_pulled_empty _ _ _ hp]
      simp [hp, queued, workerPulls]
    · simp only [Bool.not_eq_true] at hp
      rw [List.map_cons, pulledTurn, Entry_pulled_frame _ _ _ hp]
      constructor
      · rw [queued_append, ihq, List.takeWhile_cons, List.all_cons, hp]
        simp only [Bool.not_false, Bool.true_and, if_true, List.map_cons]
        simp [queued, frameEvent]
      · rw [workerPulls_append, ihp, List.takeWhile_cons, List.all_cons, hp]
        simp only [Bool.not_false, Bool.true_and, if_true, List.length_cons]
        simp [workerPulls]
        omega

/-- C8. A failed conversion does not give the empty bitmap: with a converter that reports
failure and leaves the allocated bitmap as it is, `OnCameraFrame` in a live session and
`OnVideoSetFrame` in a video session both put the allocated, unconverted bitmap into the
presenter, with the acquisition time of the frame. -/
theorem C8_failed_conversion_is_presented :
    (rejectingConverter.ConvertMatBitmapTowxBitmap (pixel 7)
        (rejectingConverter.newBitmap 1 1 24)).1 = false
      ∧ (liveSession.OnCameraFrame rejectingConverter
          { matBitmap := pixel 7, timeGet := 5 } 3).1.m_bitmapPanel
        = { m_bitmap := wxBitmap.image 1 1 24 [], m_timeGetCVBitmap := 5,
            m_timeConvertBitmap := 0, virtualSize := (1, 1) }
      ∧ (videoSession.OnVideoSetFrame rejectingConverter 2 6 3).1.m_bitmapPanel
        = { m_bitmap := wxBitmap.image 1 1 24 [], m_timeGetCVBitmap := 6,
            m_timeConvertBitmap := 0, virtualSize := (1, 1) } := by
  decide

/-- C9. Seek to the current frame is a no-op: `OnVideoSetFrame` with the requested frame
number equal to `m_currentVideoFrameNumber` performs no effect (no pull, no position
change, no `SetBitmap`) and returns the state unchanged. -/
theorem C9_seek_current_is_noop (cv : Converter) (s : OpenCVFrame) (timeGet time : Int) :
    s.OnVideoSetFrame cv s.m_currentVideoFrameNumber timeGet time = (s, []) := by
  unfold OpenCVFrame.OnVideoSetFrame
  by_cases h : s.m_videoCapture.isNone <;> simp [h]

/-- C10. Seek shows the requested frame: with the capture holding a list of frames and a
read position that advances by one on each pull, for every capture position and every
requested n, 0 <= n, different from `m_currentVideoFrameNumber`, whose frame `m` is in the
list, is not empty and is converted successfully, `OnVideoSetFrame(n)` leaves the presenter
with the conversion of `m`, the measured acquisition time and the measured conversion
time, sets `m_currentVideoFrameNumber` to n and leaves the capture at position n + 1. Its
effects are the position change, present exactly when n differs from the position of
the capture, one pull, the conversion and one `SetBitmap`. -/
theorem C10_seek_shows_requested_frame (cv : Converter) (s : OpenCVFrame)
    (cap : VideoCapture) (n timeGet time : Int) (m : Mat)
    (hcap : s.m_videoCapture = some cap) (h0 : 0 ≤ n)
    (hm : cap.frames[n.toNat]? = some m)
    (hne : n ≠ s.m_currentVideoFrameNumber) (hmat : m.empty = false)
    (hconv : (cv.ConvertMatBitmapTowxBitmap m (cv.newBitmap m.cols m.rows 24)).1 = true)
    (hok : (cv.ConvertMatBitmapTowxBitmap m (cv.newBitmap m.cols m.rows 24)).2.IsOk = true) :
    (s.OnVideoSetFrame cv n timeGet time).1.m_bitmapPanel.shows
        = ((cv.ConvertMatBitmapTowxBitmap m (cv.newBitmap m.cols m.rows 24)).2, timeGet, time)
      ∧ (s.OnVideoSetFrame cv n timeGet time).1.m_currentVideoFrameNumber = n
      ∧ (s.OnVideoSetFrame cv n timeGet time).1.m_videoCapture = some { cap with pos := n + 1 }
      ∧ (s.OnVideoSetFrame cv n timeGet time).2
        = (if n ≠ cap.pos then [Effect.captureSetPos n] else [])
          ++ [Effect.capturePull, Effect.convert m,
            Effect.SetBitmap (cv.ConvertMatBitmapTowxBitmap m (cv.newBitmap m.cols m.rows 24)).2
              timeGet time] := by
  have hread : ∀ c : VideoCapture, c.frames = cap.frames → c.pos = n →
      c.read = (m, { c with pos := n + 1 }) := by
    intro c hf hp
    cases c
    simp only at hf hp
    subst hf hp
    simp [VideoCapture.read, h0, hm]
  have hcm : OpenCVFrame.ConvertMatToBitmap cv m time 0
      = (((cv.ConvertMatBitmapTowxBitmap m (cv.newBitmap m.cols m.rows 24)).2, time),
          [Effect.convert m]) := by
    simp [OpenCVFrame.ConvertMatToBitmap, hmat, hconv]
  by_cases hpos : n = cap.pos
  · subst hpos
    have hr := hread cap rfl rfl
    simp [OpenCVFrame.OnVideoSetFrame, OpenCVFrame.ShowVideoFrame, hcap, hne, hr, hmat,
      hcm, hok, wxBitmapFromOpenCVPanel.shows, wxBitmapFromOpenCVPanel.SetBitmap]
  · have hr := hread { cap with pos := n } rfl rfl
    simp [OpenCVFrame.OnVideoSetFrame, OpenCVFrame.ShowVideoFrame, hcap, hne, hpos, hr, hmat,
      hcm, hok, wxBitmapFromOpenCVPanel.shows, wxBitmapFromOpenCVPanel.SetBitmap]

/-- Witness of C10: in the video session (three frames, frame 0 shown, capture at
position 1) the last frame, number 2, is requested. -/
theorem C10_seek_shows_requested_frame_witness :
    videoSession.m_videoCapture
        = some { openedCapture "v.avi" [pixel 10, pixel 11, pixel 12] with pos := 1 }
      ∧ (2 : Int) ≠ videoSession.m_currentVideoFrameNumber
      ∧ (videoSession.OnVideoSetFrame copyConverter 2 6 3).1.m_bitmapPanel.shows
        = (wxBitmap.image 1 1 24 [12], 6, 3)
      ∧ (videoSession.OnVideoSetFrame copyConverter 2 6 3).1.m_currentVideoFrameNumber = 2 :=
  ⟨by decide, by decide,
    (C10_seek_shows_requested_frame copyConverter videoSession
      { openedCapture "v.avi" [pixel 10, pixel 11, pixel 12] with pos := 1 } 2 6 3 (pixel 12)
      (by decide) (by decide) (by decide) (by decide) (by decide) (by decide) (by decide)).1,
    (C10_seek_shows_requested_frame copyConverter videoSession
      { openedCapture "v.avi" [pixel 10, pixel 11, pixel 12] with pos := 1 } 2 6 3 (pixel 12)
      (by decide) (by decide) (by decide) (by decide) (by decide) (by decide) (by decide)).2.1⟩

/-- C11. Postcondition of `Clear()`: for every session state, after `Clear()` the mode is
Empty, there is no worker and no capture resource, the source name is empty,
`m_currentVideoFrameNumber` is 0 and the presenter holds the empty bitmap with acquisition
and conversion times 0; `Clear()` applied twice gives the state `Clear()` applied once
gives. -/
theorem C11_clear_postcondition (s : OpenCVFrame) :
    s.Clear.1.m_mode = Mode.Empty
      ∧ s.Clear.1.m_cameraThread = none
      ∧ s.Clear.1.m_videoCapture = none
      ∧ s.Clear.1.m_sourceName = ""
      ∧ s.Clear.1.m_currentVideoFrameNumber = 0
      ∧ s.Clear.1.m_bitmapPanel.m_bitmap = wxBitmap.null
      ∧ s.Clear.1.m_bitmapPanel.m_timeGetCVBitmap = 0
      ∧ s.Clear.1.m_bitmapPanel.m_timeConvertBitmap = 0
      ∧ s.Clear.1.Clear.1 = s.Clear.1 := by
  refine ⟨?_, ?_, ?_, ?_, ?_, ?_, ?_, ?_, Clear_state_eq _ _⟩ <;>
    cases hs : s.m_cameraThread <;>
    simp [OpenCVFrame.Clear, OpenCVFrame.DeleteCameraThread, OpenCVFrame.UpdateFrameTitle,
      wxBitmapFromOpenCVPanel.SetBitmap, hs]

/-- C12. The payload is not owned exactly once on every loop turn: when the pull raises
`cv::Exception`, the `CameraFrame` allocated in that turn is neither deleted by the worker
nor posted. First run: one turn with an exception, then cancellation. Second run: a turn
with an exception, a turn with a successful pull, then cancellation; two payloads are
allocated, one is posted and none is deleted by the worker. -/
theorem C12_payload_is_lost_on_exception :
    (CameraThread.Entry [LoopInput.threw, LoopInput.destroyed]
        = [Effect.newCameraFrame, Effect.workerPull, Effect.workerLogError]
      ∧ (CameraThread.Entry [LoopInput.threw, LoopInput.destroyed]).count
          Effect.newCameraFrame = 1
      ∧ (CameraThread.Entry [LoopInput.threw, LoopInput.destroyed]).count
          Effect.workerDeleteFrame = 0
      ∧ queued (CameraThread.Entry [LoopInput.threw, LoopInput.destroyed]) = [])
    ∧ ((CameraThread.Entry
          [LoopInput.threw, LoopInput.pulled (pixel 7) 5, LoopInput.destroyed]).count
          Effect.newCameraFrame = 2
      ∧ (CameraThread.Entry
          [LoopInput.threw, LoopInput.pulled (pixel 7) 5, LoopInput.destroyed]).count
          Effect.workerDeleteFrame = 0
      ∧ queued (CameraThread.Entry
          [LoopInput.threw, LoopInput.pulled (pixel 7) 5, LoopInput.destroyed])
        = [wxThreadEvent.CAMERA_FRAME { matBitmap := pixel 7, timeGet := 5 }]) := by
  decide

/-- C13. A stray frame is dropped silently: in every state whose mode is neither WebCam
nor IPCamera, `OnCameraFrame` returns the state as it was (mode, source name, frame
number, capture resource, worker, bitmap and timings of the presenter) and its only
effect is the deletion of the payload: no conversion and no call of `SetBitmap`. -/
theorem C13_stray_frame_is_dropped (cv : Converter) (s : OpenCVFrame) (frame : CameraFrame)
    (time : Int) (hw : s.m_mode ≠ Mode.WebCam) (hi : s.m_mode ≠ Mode.IPCamera) :
    (s.OnCameraFrame cv frame time).1 = s
      ∧ (s.OnCameraFrame cv frame time).2 = [Effect.deleteFrame frame]
      ∧ setBitmapCalls (s.OnCameraFrame cv frame time).2 = []
      ∧ ∀ mat, Effect.convert mat ∉ (s.OnCameraFrame cv frame time).2 := by
  have hm : (s.m_mode != Mode.IPCamera && s.m_mode != Mode.WebCam) = true := by
    simp [hw, hi]
  unfold OpenCVFrame.OnCameraFrame
  rw [hm]
  simp [setBitmapCalls]

/-- Witness of C13: a frame event handled in the video session, in the image session and
in the initial (empty) session. -/
theorem C13_stray_frame_is_dropped_witness :
    (videoSession.m_mode = Mode.Video ∧ imageSession.m_mode = Mode.Image
        ∧ OpenCVFrame.initial.m_mode = Mode.Empty)
      ∧ (videoSession.OnCameraFrame copyConverter { matBitmap := pixel 7, timeGet := 5 } 3).1
        = videoSession
      ∧ (imageSession.OnCameraFrame copyConverter { matBitmap := pixel 7, timeGet := 5 } 3).1
        = imageSession
      ∧ (OpenCVFrame.initial.OnCameraFrame copyConverter
          { matBitmap := pixel 7, timeGet := 5 } 3).1 = OpenCVFrame.initial :=
  ⟨by decide,
    (C13_stray_frame_is_dropped copyConverter videoSession
      { matBitmap := pixel 7, timeGet := 5 } 3 (by decide) (by decide)).1,
    (C13_stray_frame_is_dropped copyConverter imageSession
      { matBitmap := pixel 7, timeGet := 5 } 3 (by decide) (by decide)).1,
    (C13_stray_frame_is_dropped copyConverter OpenCVFrame.initial
      { matBitmap := pixel 7, timeGet := 5 } 3 (by decide) (by decide)).1⟩

/-- C14. Paint coverage: when the panel holds a valid bitmap of size (w, h) and the scroll
offset in pixels (ox, oy) is not negative, for every client size (cw, ch), which is
positive as soon as the visible region has a point, every point of the visible region
[ox, ox+cw) x [oy, oy+ch) that lies outside the bitmap [0, w) x [0, h) is covered by a
rectangle that `OnPaint` fills. The rectangles filled
are the right one (x = w, y = oy, width cw - w + ox, height ch), drawn when w - ox < cw, and
the bottom one (x = ox, y = h, width w, height ch - h + oy), drawn when h - oy < ch; the
width of the right one and the height of the bottom one are positive when they are
drawn. -/
theorem C14_paint_coverage (p : wxBitmapFromOpenCVPanel) (w h d : Nat) (pixels : List Nat)
    (clientSize viewStart pixelsPerUnit : Int × Int) (drawTime ox oy x y : Int)
    (hb : p.m_bitmap = wxBitmap.image w h d pixels)
    (hox : ox = viewStart.1 * pixelsPerUnit.1) (hoy : oy = viewStart.2 * pixelsPerUnit.2)
    (hox0 : 0 ≤ ox) (hoy0 : 0 ≤ oy)
    (hx : ox ≤ x ∧ x < ox + clientSize.1) (hy : oy ≤ y ∧ y < oy + clientSize.2)
    (hout : ¬(0 ≤ x ∧ x < w ∧ 0 ≤ y ∧ y < h)) :
    (∃ r ∈ paintedRects (p.OnPaint clientSize viewStart pixelsPerUnit drawTime),
        r.Contains x y = true)
      ∧ paintedRects (p.OnPaint clientSize viewStart pixelsPerUnit drawTime)
        = (if (w : Int) - ox < clientSize.1 then
              [{ x := w, y := oy, width := clientSize.1 - w + ox, height := clientSize.2 }]
            else [])
          ++ (if (h : Int) - oy < clientSize.2 then
              [{ x := ox, y := h, width := w, height := clientSize.2 - h + oy }]
            else [])
      ∧ ((w : Int) - ox < clientSize.1 → 0 < clientSize.1 - w + ox)
      ∧ ((h : Int) - oy < clientSize.2 → 0 < clientSize.2 - h + oy) := by
  have hr := OnPaint_rects p w h d pixels clientSize viewStart pixelsPerUnit drawTime ox oy
    hb hox hoy
  refine ⟨?_, hr, fun hlt => by omega, fun hlt => by omega⟩
  rw [hr]
  by_cases hxw : x < (w : Int)
  · have hyh : (h : Int) ≤ y := by omega
    have hdraw : (h : Int) - oy < clientSize.2 := by omega
    refine ⟨{ x := ox, y := h, width := w, height := clientSize.2 - h + oy }, ?_, ?_⟩
    · simp [hdraw]
    · simp only [wxRect.Contains, Bool.and_eq_true, decide_eq_true_eq]
      omega
  · have hdraw : (w : Int) - ox < clientSize.1 := by omega
    refine ⟨{ x := w, y := oy, width := clientSize.1 - w + ox, height := clientSize.2 }, ?_, ?_⟩
    · simp [hdraw]
    · simp only [wxRect.Contains, Bool.and_eq_true, decide_eq_true_eq]
      omega

/-- Witness of C14: a bitmap of 100 x 80 pixels in a client area of 300 x 200 pixels,
scrolled by (2, 1) units of 8 pixels; the point (150, 100) lies right of and below the
bitmap. -/
theorem C14_paint_coverage_witness :
    paintedPanel.m_bitmap = wxBitmap.image 100 80 24 []
      ∧ ((16 : Int) ≤ 150 ∧ (150 : Int) < 16 + 300) ∧ ((8 : Int) ≤ 100 ∧ (100 : Int) < 8 + 200)
      ∧ ¬((0 : Int) ≤ 150 ∧ (150 : Int) < (100 : Nat) ∧ (0 : Int) ≤ 100
          ∧ (100 : Int) < (80 : Nat))
      ∧ (∃ r ∈ paintedRects (paintedPanel.OnPaint (300, 200) (2, 1) (8, 8) 1),
          r.Contains 150 100 = true)
      ∧ paintedRects (paintedPanel.OnPaint (300, 200) (2, 1) (8, 8) 1)
        = [{ x := 100, y := 8, width := 216, height := 200 },
            { x := 16, y := 80, width := 100, height := 128 }] :=
  ⟨rfl, by decide, by decide, by decide,
    (C14_paint_coverage paintedPanel 100 80 24 [] (300, 200) (2, 1) (8, 8) 1 16 8 150 100
      rfl (by decide) (by decide) (by decide) (by decide) (by decide) (by decide)
      (by decide)).1,
    by decide⟩
